import Mathlib

/-!
Verification development for the pdf-chat ingestion and indexing pipeline.

The definitions below are a shallow embedding of the Python source:

* `src/src/core/processing/local_fs/process_paragraphs.py` — token counting,
  line-accumulation chunking, paragraph-batch embedding, the per-file pass;
* `src/src/core/processing/p_utils.py` and `src/src/core/workers/w_utils.py` —
  paragraph id generation, recovery sweep, worker claim filters;
* `src/src/core/repositories/repo_redis.py` and
  `src/src/vectors/save_strategies/save_redis.py` — the redis vector sink;
* `src/src/core/repositories/repo_files.py` — the sqlite file registry;
* `src/src/processing/local_fs/process_file.py` — the per-file driver
  (load dedup set, run the pass, advance the status).

External collaborators are parameters: the md5 hex digest is an abstract
function `String → String`, the random suffix drawn by `random.choices` is an
explicit argument (one per call site, indexed by paragraph position), and the
embedding service is an oracle `List String → Except String (List EmbItem)`.
Float payloads (bounding boxes, embedding coordinates) are never computed on
by the code under verification, so they are carried as opaque `Int` data.
-/

namespace PdfChat

/-- FileItem from `core/repositories/repo_files.py` (one row of the
`user_files` sqlite table). `created_at` is carried as its ISO-8601 string. -/
structure FileItem where
  file_name : String
  file_name_orig : String
  user_id : Int
  created_at : String
  processing_status : String
  vector_store_id : String
  deriving DecidableEq, Repr

/-- Bounding box of a paragraph: four float payloads, carried opaquely. -/
abbrev PBox := Int × Int × Int × Int

/-- ParagraphData from `core/processing/p_models.py`: one jsonl record of the
per-file paragraph artifact. `paragraph_id` is `Optional` and, as written by
the extractor (`ParagraphData.to_dict` in
`extraction/pdf_extractor/paragraph_parser.py`), absent from the jsonl. -/
structure ParagraphData where
  page_n : Int
  section_number : Option String
  paragraph_text : String
  paragraph_box : PBox
  paragraph_id : Option String
  deriving DecidableEq, Repr

/-- ParagraphVectorData from `processing/p_models.py`: one chunk of one
paragraph together with its embedding (None until assigned). -/
structure ParagraphVectorData where
  paragraph_id : String
  page_n : Int
  paragraph_box : PBox
  idx : Nat
  text : String
  embedding : Option (List Int)
  deriving DecidableEq, Repr

/-!  Token counting and chunking
(`core/processing/local_fs/process_paragraphs.py`, lines 26-49). -/

/-- count_tokens: Python `int((len(text) or 1) / 4)`. `len(text) or 1` is the
length unless the text is empty (then 1), and `int` of a nonnegative float
division truncates, i.e. Nat floor division. -/
def count_tokens (text : String) : Nat :=
  (if text.length = 0 then 1 else text.length) / 4

/-- Characters that Python `str.splitlines` treats as line boundaries. -/
def isPyLineBreak (c : Char) : Bool :=
  c = '\n' || c = '\r' || c = '\x0b' || c = '\x0c' ||
  c = '\x1c' || c = '\x1d' || c = '\x1e' || c = '\x85' ||
  c = '\u2028' || c = '\u2029'

/-- Worker for `splitlinesKeepends`: `acc` is the current line, reversed.
A carriage return followed by a newline counts as a single boundary. -/
def splitlinesAux : List Char → List Char → List String
  | acc, [] => if acc.isEmpty then [] else [⟨acc.reverse⟩]
  | acc, '\r' :: '\n' :: rest => (⟨acc.reverse ++ ['\r', '\n']⟩ : String) :: splitlinesAux [] rest
  | acc, c :: rest =>
      if isPyLineBreak c then (⟨acc.reverse ++ [c]⟩ : String) :: splitlinesAux [] rest
      else splitlinesAux (c :: acc) rest

/-- Python `text.splitlines(keepends=True)`. -/
def splitlinesKeepends (text : String) : List String :=
  splitlinesAux [] text.data

/-- Loop body of chunkify_text: the running pair is (chunks, buff).
Note that when the token estimate of `buff + line` exceeds `min_tokens`,
the source appends `buff` and resets `buff` to the empty string — the
current `line` is not carried into the new buffer. -/
def chunkifyStep (min_tokens : Nat) (st : List String × String) (line : String) :
    List String × String :=
  let new_buff := st.2 ++ line
  if count_tokens new_buff > min_tokens then (st.1 ++ [st.2], "")
  else (st.1, new_buff)

/-- chunkify_text (`process_paragraphs.py`, lines 30-49). -/
def chunkify_text (text : String) (min_tokens max_tokens : Nat) : List String :=
  if count_tokens text < max_tokens then [text]
  else
    let st := (splitlinesKeepends text).foldl (chunkifyStep min_tokens) ([], "")
    if st.2 ≠ "" then st.1 ++ [st.2] else st.1

/-!  Paragraph id generation. The md5 hex digest (`hashlib.md5(...).hexdigest()`)
is an external library call, abstracted as a function parameter `md5hex`. -/

/-- generate_content_hash (`p_utils.py` lines 70-83 and `w_utils.py` lines
29-42, identical): hash of `salt + content`, truncated. -/
def generate_content_hash (md5hex : String → String) (content : String)
    (salt : String) (length : Nat) : String :=
  (md5hex (salt ++ content)).take length

/-- generate_paragraph_id from `core/processing/p_utils.py` (lines 54-67), the
variant used by the local_fs indexing path. The 4-character suffix drawn by
`random.choices` at each call is the explicit argument `random_suffix`. -/
def p_generate_paragraph_id (md5hex : String → String) (random_suffix : String)
    (paragraph_text : String) : String :=
  "pid-" ++ generate_content_hash md5hex paragraph_text "" 6 ++ "-" ++ random_suffix

/-- generate_paragraph_id from `core/workers/w_utils.py` (lines 16-26), the
variant used by the openai_fs path: no random suffix. -/
def w_generate_paragraph_id (md5hex : String → String) (paragraph_text : String) : String :=
  "pid-" ++ generate_content_hash md5hex paragraph_text "" 8

/-!  The embedding pass (`process_paragraphs.py`, lines 52-152).

`async_create_embeddings` is the external embedding service; one call on a
batch of texts either raises (error or timeout, both land in the same
`except`) or returns one `EmbItem` per input text. It is abstracted as the
oracle parameter. `EMBEDDING_BATCH_SIZE` comes from the configuration module
`core/processing/local_fs/const.py` (not in the sources); it is the
parameter `bsz`. `SEMAPHORE_LIMIT` only bounds scheduling concurrency and has
no functional effect on a completed pass. -/

/-- One embedding returned by the service: response index and vector payload. -/
structure EmbItem where
  index : Nat
  embedding : List Int
  deriving DecidableEq, Repr

/-- Result of one call to the embedding service on a batch of texts. -/
abbrev EmbedOracle := List String → Except String (List EmbItem)

/-- Python falsiness of an Optional str (`not p.paragraph_id`). -/
def pyFalsyStr : Option String → Bool
  | none => true
  | some s => s == ""

/-- Python falsiness of an Optional list (`if pv.embedding`). -/
def pyFalsyEmb : Option (List Int) → Bool
  | none => true
  | some l => l.isEmpty

/-- Stable insertion of an item into a list sorted by `index`, the helper of
`sortByIndex`. -/
def insertByIndex (x : EmbItem) : List EmbItem → List EmbItem
  | [] => [x]
  | y :: ys => if y.index < x.index then y :: insertByIndex x ys else x :: y :: ys

/-- Stable sort by `index`: model of `embeddings.sort(key=lambda i: i.index)`
(`process_paragraphs.py` line 97). -/
def sortByIndex : List EmbItem → List EmbItem
  | [] => []
  | x :: xs => insertByIndex x (sortByIndex xs)

/-- Chunk expansion of one paragraph (`process_paragraphs.py` lines 57-67):
each chunk of `chunkify_text(text, 256, 1024)` becomes a ParagraphVectorData
with its chunk index; the embedding is not assigned yet. At this point the
paragraph id has already been assigned, so the Optional is populated. -/
def paragraphPVecs (p : ParagraphData) : List ParagraphVectorData :=
  (chunkify_text p.paragraph_text 256 1024).enum.map fun ie =>
    { paragraph_box := p.paragraph_box
      paragraph_id := p.paragraph_id.getD ""
      idx := ie.1
      text := ie.2
      page_n := p.page_n
      embedding := none }

/-- Assignment of embeddings to one sub-batch (`process_paragraphs.py` lines
97-102): sort the response by index, zip against the sub-batch in order. -/
def assignEmbeddings (sb : List ParagraphVectorData) (items : List EmbItem) :
    List ParagraphVectorData :=
  (sb.zip (sortByIndex items)).map fun pe => { pe.1 with embedding := some pe.2.embedding }

/-- Result of `process_paragraphs_batch` on one task: the trace of embedding
calls actually made (inputs with a flag, true when the service answered), the
failure flag (an exception reached the outer `except`, which also marks the
file incomplete), and the ParagraphVectorData returned for saving. -/
structure BatchResult where
  trace : List (List String × Bool)
  failed : Bool
  pvecs : List ParagraphVectorData
  deriving DecidableEq, Repr

/-- Sequential loop over the sub-batches of one task (`for p_vecs_batch in
chunked(p_vecs, EMBEDDING_BATCH_SIZE)`): each call either errors (the raise
reaches the outer handler, aborting the remaining sub-batches), answers with
a wrong count (the explicit raise, same handler), or assigns embeddings and
continues. Returns the call trace and, when no exception occurred, the
accumulated vectors. -/
def runSubBatches (oracle : EmbedOracle) :
    List (List ParagraphVectorData) → List (List String × Bool) × Option (List ParagraphVectorData)
  | [] => ([], some [])
  | sb :: rest =>
    let texts := sb.map (·.text)
    match oracle texts with
    | .error _ => ([(texts, false)], none)
    | .ok items =>
      if items.length = sb.length then
        match runSubBatches oracle rest with
        | (tr, none) => ((texts, true) :: tr, none)
        | (tr, some vs) => ((texts, true) :: tr, some (assignEmbeddings sb items ++ vs))
      else ([(texts, true)], none)

/-- process_paragraphs_batch (`process_paragraphs.py` lines 52-114): expand the
task paragraphs into chunk vectors, embed them sub-batch by sub-batch; on any
exception the whole task returns no vectors (even for sub-batches that had
already embedded) and the file is marked incomplete (the `failed` flag). -/
def process_paragraphs_batch (oracle : EmbedOracle) (bsz : Nat)
    (paragraphs : List ParagraphData) : BatchResult :=
  match runSubBatches oracle (List.toChunks bsz (paragraphs.flatMap paragraphPVecs)) with
  | (tr, none) => ⟨tr, true, []⟩
  | (tr, some vs) => ⟨tr, false, vs⟩

/-- Paragraph id assignment inside the task-building loop
(`process_paragraphs.py` lines 136-138): a falsy id (absent or empty) is
replaced by a generated one. `pid` is the id the generator produced for this
call site. -/
def assignParagraphId (pid : String) (p : ParagraphData) : ParagraphData :=
  if pyFalsyStr p.paragraph_id then { p with paragraph_id := some pid } else p

/-- Ids are assigned per paragraph in stream order; `gen i text` is the id
`generate_paragraph_id` produced at the i-th call (the Nat index models the
fresh randomness of each call). Assignment is per paragraph, so assigning
before batching equals the per-batch loop of the source. -/
def assignIds (gen : Nat → String → String) (pars : List ParagraphData) : List ParagraphData :=
  pars.enum.map fun ip => assignParagraphId (gen ip.1 ip.2.paragraph_text) ip.2

/-- Task batches of the pass (`for data_dict_batch in chunked(jsonl_reader(...),
EMBEDDING_BATCH_SIZE)`): the jsonl stream in groups of `bsz`, ids assigned.
The membership test `if p.paragraph_id in processed_paragraphs: continue` is
the last statement of its loop body, so it removes nothing from the batch. -/
def taskBatches (gen : Nat → String → String) (bsz : Nat)
    (pars : List ParagraphData) : List (List ParagraphData) :=
  List.toChunks bsz (assignIds gen pars)

/-- Result of a whole per-file pass over the paragraph jsonl. -/
structure PassResult where
  trace : List (List String × Bool)
  anyFailed : Bool
  pvecs : List ParagraphVectorData
  deriving DecidableEq, Repr

/-- process_file_paragraphs (`process_paragraphs.py` lines 117-152), embedding
part: every task batch is scheduled (the dedup set `processed_paragraphs` is
consulted but, because of the dead `continue`, filters nothing), the tasks
run independently (each catches its own exceptions, so `asyncio.gather`
cancels nothing), and their vectors are concatenated for saving. -/
def process_file_paragraphs (oracle : EmbedOracle) (gen : Nat → String → String)
    (bsz : Nat) (pars : List ParagraphData) (processed_paragraphs : List String) :
    PassResult :=
  let _ := processed_paragraphs
  let results := (taskBatches gen bsz pars).map (process_paragraphs_batch oracle bsz)
  ⟨results.flatMap (·.trace), results.any (·.failed), results.flatMap (·.pvecs)⟩

/-!  The redis vector sink (`core/repositories/repo_redis.py` and
`vectors/save_strategies/save_redis.py`). The key-value store and the set of
FT indices are modeled explicitly; one hset per vector, keyed
`f"(index_name):(vec.id)"` — the chunk index `idx` is only a metadata field,
not part of the key. -/

/-- Metadata attached to one stored vector (`save_redis.py` lines 40-48). -/
structure RMeta where
  paragraph_box : PBox
  text : String
  page_n : Int
  idx : Nat
  file_name : String
  file_name_orig : String
  deriving DecidableEq, Repr

/-- VectorItem from `repo_redis.py` (lines 11-16). -/
structure VectorItem where
  id : String
  vector : List Int
  metadata : RMeta
  deriving DecidableEq, Repr

/-- State of the redis backend: hash keys with their values, and the set of
FT vector indices that have been created. -/
structure RedisState where
  kv : List (String × VectorItem)
  indices : List String
  deriving DecidableEq, Repr

/-- Upsert semantics of `pipeline.hset(key, mapping=data)`: replace the value
under an existing key, append otherwise. -/
def hset (kv : List (String × VectorItem)) (key : String) (v : VectorItem) :
    List (String × VectorItem) :=
  if kv.any (·.1 == key) then kv.map (fun e => if e.1 == key then (key, v) else e)
  else kv ++ [(key, v)]

/-- add_vectors (`repo_redis.py` lines 151-185): one hset per vector under the
key `index_name + ":" + vec.id`. The source itself warns that vectors sharing
an id overwrite one another. -/
def add_vectors (index_name : String) (st : RedisState) (vectors : List VectorItem) :
    RedisState :=
  { st with kv := vectors.foldl (fun kv v => hset kv (index_name ++ ":" ++ v.id) v) st.kv }

/-- index_exists (`repo_redis.py` lines 69-89). -/
def index_exists (st : RedisState) (index_name : String) : Bool :=
  st.indices.contains index_name

/-- create_vector_index (`repo_redis.py` lines 91-149); the dimension only
parameterizes the FT schema, which the model does not inspect. -/
def create_vector_index (st : RedisState) (index_name : String) (_dimension : Nat) :
    RedisState :=
  if index_exists st index_name then st
  else { st with indices := st.indices ++ [index_name] }

/-- Everything after the first colon of a key, Python `key.split(':', 1)[1]`;
none when the key has no colon (Python would raise IndexError). -/
def afterFirstColon (key : String) : Option String :=
  match key.splitOn ":" with
  | [] => none
  | [_] => none
  | _ :: rest => some (String.intercalate ":" rest)

/-- Keys a successful SCAN loop with pattern `f"(index_name):*"` reports:
every stored key starting with the index name and a colon. -/
def scanKeys (st : RedisState) (index_name : String) : List String :=
  (st.kv.map (·.1)).filter (·.startsWith (index_name ++ ":"))

/-- get_all_vector_ids (`repo_redis.py` lines 187-228). The whole body runs
inside one `try`; `scanRes` is what the backend interaction produced — either
an error (connection failure, scan failure, decode failure) or the list of
matching keys. Each key is stripped to the part after its first colon; a key
without a colon would raise inside the same `try`. Every error path returns
the empty list. -/
def get_all_vector_ids (scanRes : Except String (List String)) : List String :=
  match scanRes with
  | .error _ => []
  | .ok keys =>
    match keys.mapM afterFirstColon with
    | none => []
    | some ids => ids

/-- Conversion of one ParagraphVectorData to the stored VectorItem
(`save_redis.py` lines 37-52): the id is the paragraph id alone. Only vectors
with a truthy embedding reach this point, hence the default for `getD`. -/
def toVectorItem (file : FileItem) (pv : ParagraphVectorData) : VectorItem :=
  { id := pv.paragraph_id
    vector := pv.embedding.getD []
    metadata :=
      { paragraph_box := pv.paragraph_box
        text := pv.text
        page_n := pv.page_n
        idx := pv.idx
        file_name := file.file_name
        file_name_orig := file.file_name_orig } }

/-- save_vectors_to_redis (`vectors/save_strategies/save_redis.py`): raise on
an empty vector list, lazily create the index sized from the first embedding,
filter out vectors with falsy embeddings, raise if none remain, then upsert.
`trigger_save` only snapshots to disk and is omitted. -/
def save_vectors_to_redis (file : FileItem) (st : RedisState)
    (paragraph_vectors : List ParagraphVectorData) : Except String RedisState :=
  match paragraph_vectors with
  | [] => .error "No paragraph vectors provided"
  | pv0 :: _ =>
    let index_name := file.file_name
    let ensured : Except String RedisState :=
      if index_exists st index_name then .ok st
      else
        match pv0.embedding with
        | none => .error "No embedding found"
        | some emb =>
          if emb.isEmpty then .error "No embedding found"
          else .ok (create_vector_index st index_name emb.length)
    match ensured with
    | .error e => .error e
    | .ok st1 =>
      let vectors := (paragraph_vectors.filter (fun pv => !(pyFalsyEmb pv.embedding))).map
        (toVectorItem file)
      if vectors.isEmpty then .error ("No vectors to save for file: " ++ file.file_name)
      else .ok (add_vectors index_name st1 vectors)

/-- process_single_file (`processing/local_fs/process_file.py`, redis save
strategy, jsonl present with contents `pars`): mark the file processing, load
the dedup set from the sink, run the pass, save; an exception anywhere in the
pass or the save marks the file incomplete, otherwise the status check at the
end promotes it to complete. Returns the new sink state and the final
processing_status of the file. -/
def process_single_file (oracle : EmbedOracle) (gen : Nat → String → String)
    (bsz : Nat) (st : RedisState) (file : FileItem) (pars : List ParagraphData) :
    RedisState × String :=
  let processed_paragraphs := get_all_vector_ids (.ok (scanKeys st file.file_name))
  let r := process_file_paragraphs oracle gen bsz pars processed_paragraphs
  match save_vectors_to_redis file st r.pvecs with
  | .error _ => (st, "incomplete")
  | .ok st1 => if r.anyFailed then (st1, "incomplete") else (st1, "complete")

/-!  The file registry (`core/repositories/repo_files.py`): a sqlite table
with `file_name` as primary key, modeled as a row list. -/

/-- Semantics of the INSERT in create_file_sync: the primary key rejects a
duplicate `file_name` with an IntegrityError (none), otherwise appends. -/
def sql_insert_user_files (rows : List FileItem) (row : FileItem) :
    Option (List FileItem) :=
  if rows.any (·.file_name == row.file_name) then none
  else some (rows ++ [row])

/-- create_file_sync (`repo_files.py` lines 84-105): true on insert, false on
IntegrityError, the table untouched in that case. -/
def create_file_sync (rows : List FileItem) (file : FileItem) :
    Bool × List FileItem :=
  match sql_insert_user_files rows file with
  | none => (false, rows)
  | some rows1 => (true, rows1)

/-- update_file_sync (`repo_files.py` lines 181-212): the UPDATE sets every
column except the primary key on each row whose `file_name` matches. -/
def update_file_sync (rows : List FileItem) (key : String) (item : FileItem) :
    List FileItem :=
  rows.map fun f => if f.file_name == key then { item with file_name := f.file_name } else f

/-- Status rewrite applied to each stuck file by the recovery sweep. -/
def markIncompleteItem (f : FileItem) : FileItem :=
  { f with processing_status := "incomplete" }

/-- Core of reset_stuck_files: update every fetched stuck row to incomplete.
`todo` is the fetched row list; the source fetches it ordered by created_at
descending, so the theorem below quantifies over the fetched list. -/
def reset_stuck_files_with (todo : List FileItem) (rows : List FileItem) :
    List FileItem :=
  todo.foldl (fun r f => update_file_sync r f.file_name (markIncompleteItem f)) rows

/-- reset_stuck_files (`core/processing/p_utils.py` lines 32-45): fetch every
row with processing_status = "processing" and rewrite it to "incomplete". -/
def reset_stuck_files (rows : List FileItem) : List FileItem :=
  reset_stuck_files_with (rows.filter (·.processing_status == "processing")) rows

/-- get_files_to_process (`core/processing/p_utils.py` lines 24-29): the
IndexingWorker claim filter `processing_status IN ("extracted", "incomplete")`. -/
def get_files_to_process (rows : List FileItem) : List FileItem :=
  rows.filter fun f =>
    f.processing_status == "extracted" || f.processing_status == "incomplete"

/-- Claim filter of the ExtractionWorker (`core/workers/w_extractor.py` line
60): `processing_status = ""`. -/
def get_files_to_extract (rows : List FileItem) : List FileItem :=
  rows.filter (·.processing_status == "")

/-!  The processing_status transition relation: one constructor per site that
writes processing_status, with the status the record provably holds when that
site runs. -/

/-- StatusStep s t: some pipeline write site moves a record from status s to
status t. Sites: w_extractor.py lines 74 and 84 (claimed at status "");
process_file.py line 16 (claimed through get_files_to_process), lines 43, 71
and 95-96; process_paragraphs.py lines 108-110 (during a pass, i.e. from
"processing"); p_utils.py reset_stuck_files. -/
inductive StatusStep : String → String → Prop where
  | extract_err (e : String) : StatusStep "" ("Error extracting file: " ++ e)
  | extract_ok : StatusStep "" "extracted"
  | claim_extracted : StatusStep "extracted" "processing"
  | claim_incomplete : StatusStep "incomplete" "processing"
  | jsonl_missing : StatusStep "processing" "Error: jsonl file not found on disk"
  | batch_failed : StatusStep "processing" "incomplete"
  | pass_exception : StatusStep "processing" "incomplete"
  | pass_complete : StatusStep "processing" "complete"
  | recovery_sweep : StatusStep "processing" "incomplete"

/-- Phase of a status along the forward chain; error strings and the two
terminal-or-reentrant pass outcomes share the final phase. -/
def statusRank (s : String) : Nat :=
  if s = "" then 0
  else if s = "extracted" then 1
  else if s = "processing" then 2
  else 3

/-!  Concrete fixtures used by the claim-level evaluations. `md5c` is a
stand-in digest function (the claims under test never depend on which hash
is used, only on how its output is combined). -/

/-- Stand-in md5 hex digest for concrete evaluation. -/
def md5c : String → String := fun _ => "0123456789abcdef0123456789abcdef"

/-- Embedding oracle that always succeeds, answering index-aligned unit
vectors. -/
def okOracle : EmbedOracle := fun ts =>
  .ok ((List.range ts.length).map fun i => ⟨i, [1]⟩)

/-- Paragraph whose id is already present in the jsonl record. -/
def par1 : ParagraphData := ⟨1, none, "hello", (0, 0, 0, 0), some "pid-x"⟩

/-- File registry row used by the two-pass scenario. -/
def fileA : FileItem := ⟨"f.pdf", "orig.pdf", 7, "2024-01-01T00:00:00", "extracted", ""⟩

/-- Paragraph without a jsonl paragraph id (the extractor never writes one). -/
def parH : ParagraphData := ⟨1, none, "hello world", (0, 0, 0, 0), none⟩

/-- Id generation of the first pass: the RNG drew suffix "aaaa". -/
def gen1 : Nat → String → String := fun _ t => p_generate_paragraph_id md5c "aaaa" t

/-- Id generation of the second pass: the RNG drew suffix "bbbb". -/
def gen2 : Nat → String → String := fun _ t => p_generate_paragraph_id md5c "bbbb" t

/-- First indexing pass over `fileA` starting from an empty sink. -/
def passOne : RedisState × String := process_single_file okOracle gen1 16 ⟨[], []⟩ fileA [parH]

/-- Second indexing pass over `fileA`, on the sink the first pass produced. -/
def passTwo : RedisState × String := process_single_file okOracle gen2 16 passOne.1 fileA [parH]

/-- Input of the chunker evaluation: two 13-character lines. -/
def c4Text : String := "aaaaaaaaaaaa\nbbbbbbbbbbbb\n"

/-- Registry row left in processing by a crash. -/
def procFile : FileItem := ⟨"p.pdf", "p.pdf", 1, "2024-01-02T00:00:00", "processing", ""⟩

/-- Registry row with a completed status. -/
def doneFile : FileItem := ⟨"d.pdf", "d.pdf", 2, "2024-01-03T00:00:00", "complete", ""⟩

/-- Registry row with a terminal error status. -/
def errFile : FileItem :=
  ⟨"e.pdf", "e.pdf", 3, "2024-01-04T00:00:00", "Error: jsonl file not found on disk", ""⟩

/-!  Fixtures for the partial-batch-failure scenario: a paragraph whose text
chunks into four pieces (one 400-character line per letter, lines c, f, i
dropped by the chunker), run with batch size 1 against an oracle that times
out on the chunk starting with the letter d. -/

/-- Characters of one 400-character line: 399 copies of `c` and a newline. -/
def lineChars (c : Char) : List Char := List.replicate 399 c ++ ['\n']

/-- One 400-character line as a string. -/
def lineStr (c : Char) : String := ⟨lineChars c⟩

/-- Characters of the 4400-character paragraph text (lines a through k). -/
def bigChars : List Char :=
  lineChars 'a' ++ (lineChars 'b' ++ (lineChars 'c' ++ (lineChars 'd' ++ (lineChars 'e' ++
    (lineChars 'f' ++ (lineChars 'g' ++ (lineChars 'h' ++ (lineChars 'i' ++
      (lineChars 'j' ++ lineChars 'k')))))))))

/-- The 4400-character paragraph text. -/
def bigText : String := ⟨bigChars⟩

/-- First chunk the chunker produces on `bigText` (lines a and b). -/
def chABStr : String := ⟨lineChars 'a' ++ lineChars 'b'⟩

/-- Second chunk (lines d and e; line c was dropped by the flush). -/
def chDEStr : String := ⟨lineChars 'd' ++ lineChars 'e'⟩

/-- Third chunk (lines g and h). -/
def chGHStr : String := ⟨lineChars 'g' ++ lineChars 'h'⟩

/-- Fourth chunk (lines j and k). -/
def chJKStr : String := ⟨lineChars 'j' ++ lineChars 'k'⟩

/-- Oracle that times out exactly on batches holding a chunk that starts
with the letter d, and embeds everything else. -/
def oracleC5 : EmbedOracle := fun ts =>
  if ts.any (fun t => t.front == 'd') then .error "Timeout fetching embedding (exceeded 30s)"
  else .ok ((List.range ts.length).map fun i => ⟨i, [1]⟩)

/-- The four-chunk paragraph as read from the jsonl (no id yet). -/
def parBig : ParagraphData := ⟨1, none, bigText, (0, 0, 0, 0), none⟩

/-- The four-chunk paragraph after id assignment. -/
def parBigId : ParagraphData := ⟨1, none, bigText, (0, 0, 0, 0), some "pid-big"⟩

/-- Id generation for the four-chunk scenario. -/
def genBig : Nat → String → String := fun _ _ => "pid-big"

/-- Chunk vector of the four-chunk paragraph before embedding. -/
def pvBig (i : Nat) (t : String) : ParagraphVectorData :=
  ⟨"pid-big", 1, (0, 0, 0, 0), i, t, none⟩

/-- Registry row of the four-chunk scenario. -/
def fileBig : FileItem := ⟨"big.pdf", "big.pdf", 7, "2024-01-01T00:00:00", "extracted", ""⟩

/-- Oracle of the witness scenario: fails exactly on the batch holding the
text "FAIL". -/
def oracleW : EmbedOracle := fun ts =>
  if ts.contains "FAIL" then .error "boom"
  else .ok ((List.range ts.length).map fun i => ⟨i, [1]⟩)

/-- Witness paragraph that embeds fine. -/
def pW1 : ParagraphData := ⟨1, none, "ok-para", (0, 0, 0, 0), some "pid-1"⟩

/-- Witness paragraph whose embedding call fails. -/
def pW2 : ParagraphData := ⟨1, none, "FAIL", (0, 0, 0, 0), some "pid-2"⟩

/-- Id generation of the witness scenario (never consulted: ids present). -/
def genW : Nat → String → String := fun _ _ => "pid-w"

/-- Pointwise step of the recovery sweep, used to state what one
update_file_sync does to one row. -/
def sweepStep (g t : FileItem) : FileItem :=
  if g.file_name == t.file_name then { markIncompleteItem t with file_name := g.file_name }
  else g

/-!  Helper lemmas: computation of the chunker on the four-chunk text. -/

/-- Consuming a block of non-break characters only grows the accumulator. -/
theorem splitlinesAux_replicate (n : Nat) (c : Char) (acc rest : List Char)
    (hskip : ∀ (a r : List Char), splitlinesAux a (c :: r) = splitlinesAux (c :: a) r) :
    splitlinesAux acc (List.replicate n c ++ rest) =
      splitlinesAux (List.replicate n c ++ acc) rest := by
  induction n generalizing acc with
  | zero => simp
  | succ m ih =>
      rw [List.replicate_succ, List.cons_append, hskip, ih]
      congr 1
      rw [List.append_cons, ← List.replicate_succ', List.replicate_succ, List.cons_append]

/-- Splitting nothing with an empty accumulator yields no lines. -/
theorem splitlinesAux_nil : splitlinesAux [] [] = [] := rfl

/-- A newline flushes the accumulated line, keeping the line end. -/
theorem splitlinesAux_newline (acc rest : List Char) :
    splitlinesAux acc ('\n' :: rest) =
      (⟨acc.reverse ++ ['\n']⟩ : String) :: splitlinesAux [] rest := rfl

/-- Appending strings appends their character lists. -/
theorem string_mk_append (l m : List Char) : (⟨l⟩ ++ ⟨m⟩ : String) = ⟨l ++ m⟩ := rfl

/-- The empty string and the empty character list agree. -/
theorem string_empty_mk : ("" : String) = ⟨[]⟩ := rfl

/-- Length of a string built from a character list. -/
theorem string_length_mk (l : List Char) : (⟨l⟩ : String).length = l.length := rfl

/-- Length of the four-chunk text. -/
theorem bigText_len : bigText.length = 4400 := by
  rw [bigText, string_length_mk]
  simp only [bigChars, lineChars, List.length_append, List.length_replicate,
    List.length_singleton]

/-- Token estimate of the four-chunk text. -/
theorem bigText_count : count_tokens bigText = 1100 := by
  rw [count_tokens, bigText_len]
  norm_num

/-- Line decomposition of the four-chunk text. -/
theorem splitlines_big : splitlinesKeepends bigText =
    [lineStr 'a', lineStr 'b', lineStr 'c', lineStr 'd', lineStr 'e', lineStr 'f',
     lineStr 'g', lineStr 'h', lineStr 'i', lineStr 'j', lineStr 'k'] := by
  simp only [splitlinesKeepends, bigText, bigChars, lineChars, lineStr, List.append_assoc,
    List.singleton_append]
  rw [splitlinesAux_replicate 399 'a' _ _ (fun a r => rfl)]
  rw [splitlinesAux_newline]
  rw [splitlinesAux_replicate 399 'b' _ _ (fun a r => rfl)]
  rw [splitlinesAux_newline]
  rw [splitlinesAux_replicate 399 'c' _ _ (fun a r => rfl)]
  rw [splitlinesAux_newline]
  rw [splitlinesAux_replicate 399 'd' _ _ (fun a r => rfl)]
  rw [splitlinesAux_newline]
  rw [splitlinesAux_replicate 399 'e' _ _ (fun a r => rfl)]
  rw [splitlinesAux_newline]
  rw [splitlinesAux_replicate 399 'f' _ _ (fun a r => rfl)]
  rw [splitlinesAux_newline]
  rw [splitlinesAux_replicate 399 'g' _ _ (fun a r => rfl)]
  rw [splitlinesAux_newline]
  rw [splitlinesAux_replicate 399 'h' _ _ (fun a r => rfl)]
  rw [splitlinesAux_newline]
  rw [splitlinesAux_replicate 399 'i' _ _ (fun a r => rfl)]
  rw [splitlinesAux_newline]
  rw [splitlinesAux_replicate 399 'j' _ _ (fun a r => rfl)]
  rw [splitlinesAux_newline]
  rw [splitlinesAux_replicate 399 'k' _ _ (fun a r => rfl)]
  rw [splitlinesAux_newline]
  simp only [List.append_nil, List.reverse_replicate, splitlinesAux_nil]

/-- A line whose addition keeps the buffer within 1027 characters (at most
256 estimated tokens) is accumulated. -/
theorem chunkifyStep_take (chunks : List String) (b l : String)
    (h : (b ++ l).length ≤ 1027) :
    chunkifyStep 256 (chunks, b) l = (chunks, b ++ l) := by
  have hc : ¬ count_tokens (b ++ l) > 256 := by
    simp only [count_tokens]
    split <;> omega
  simp only [chunkifyStep]
  rw [if_neg hc]

/-- A line whose addition pushes the buffer to 1028 characters (at least 257
estimated tokens) flushes the buffer and is itself dropped. -/
theorem chunkifyStep_flush (chunks : List String) (b l : String)
    (h : 1028 ≤ (b ++ l).length) :
    chunkifyStep 256 (chunks, b) l = (chunks ++ [b], "") := by
  have hc : count_tokens (b ++ l) > 256 := by
    simp only [count_tokens]
    split <;> omega
  simp only [chunkifyStep]
  rw [if_pos hc]

/-- Length of one line of the four-chunk text. -/
theorem lineStr_len (c : Char) : (lineStr c).length = 400 := by
  rw [lineStr, string_length_mk, lineChars]
  simp only [List.length_append, List.length_replicate, List.length_singleton]

/-- The chunker output on the four-chunk text: lines c, f and i are dropped. -/
theorem chunkify_big : chunkify_text bigText 256 1024 =
    [⟨lineChars 'a' ++ lineChars 'b'⟩, ⟨lineChars 'd' ++ lineChars 'e'⟩,
     ⟨lineChars 'g' ++ lineChars 'h'⟩, ⟨lineChars 'j' ++ lineChars 'k'⟩] := by
  rw [chunkify_text, bigText_count, if_neg (by norm_num), splitlines_big]
  rw [List.foldl_cons, chunkifyStep_take _ _ _ (by simp [String.length_append, lineStr_len])]
  rw [List.foldl_cons, chunkifyStep_take _ _ _ (by simp [String.length_append, lineStr_len])]
  rw [List.foldl_cons, chunkifyStep_flush _ _ _ (by simp [String.length_append, lineStr_len])]
  rw [List.foldl_cons, chunkifyStep_take _ _ _ (by simp [String.length_append, lineStr_len])]
  rw [List.foldl_cons, chunkifyStep_take _ _ _ (by simp [String.length_append, lineStr_len])]
  rw [List.foldl_cons, chunkifyStep_flush _ _ _ (by simp [String.length_append, lineStr_len])]
  rw [List.foldl_cons, chunkifyStep_take _ _ _ (by simp [String.length_append, lineStr_len])]
  rw [List.foldl_cons, chunkifyStep_take _ _ _ (by simp [String.length_append, lineStr_len])]
  rw [List.foldl_cons, chunkifyStep_flush _ _ _ (by simp [String.length_append, lineStr_len])]
  rw [List.foldl_cons, chunkifyStep_take _ _ _ (by simp [String.length_append, lineStr_len])]
  rw [List.foldl_cons, chunkifyStep_take _ _ _ (by simp [String.length_append, lineStr_len])]
  rw [List.foldl_nil]
  have hne : (⟨lineChars 'j' ++ lineChars 'k'⟩ : String) ≠ "" := by
    rw [string_empty_mk]
    intro h
    have hlen := congrArg List.length (congrArg String.data h)
    simp only [lineChars, List.length_append, List.length_replicate, List.length_singleton,
      List.length_nil] at hlen
    omega
  simp only [lineStr, string_empty_mk, string_mk_append, List.nil_append]
  rw [if_pos hne]
  simp only [List.cons_append, List.nil_append, List.append_nil, List.append_assoc]

/-- Chunk vectors of the four-chunk paragraph. -/
theorem pvecs_big : paragraphPVecs parBigId =
    [pvBig 0 chABStr, pvBig 1 chDEStr, pvBig 2 chGHStr, pvBig 3 chJKStr] := by
  simp only [paragraphPVecs]
  rw [show parBigId.paragraph_text = bigText from rfl, chunkify_big]
  rfl

/-- The oracle embeds the first chunk. -/
theorem oracleC5_chAB : oracleC5 [chABStr] = .ok [⟨0, [1]⟩] := rfl

/-- The oracle times out on the second chunk. -/
theorem oracleC5_chDE : oracleC5 [chDEStr] = .error "Timeout fetching embedding (exceeded 30s)" := rfl

/-- Result of the four-chunk task: the first call succeeded, the second
failed, the whole task returns no vectors. -/
theorem batch_big : process_paragraphs_batch oracleC5 1 [parBigId] =
    ⟨[([chABStr], true), ([chDEStr], false)], true, []⟩ := by
  simp only [process_paragraphs_batch, List.flatMap_cons, List.flatMap_nil, List.append_nil]
  rw [pvecs_big]
  rfl

/-- Result of the whole pass on the four-chunk paragraph. -/
theorem pass_big : process_file_paragraphs oracleC5 genBig 1 [parBig] [] =
    ⟨[([chABStr], true), ([chDEStr], false)], true, []⟩ := by
  simp only [process_file_paragraphs]
  rw [show taskBatches genBig 1 [parBig] = [[parBigId]] from rfl]
  simp only [List.map_cons, List.map_nil]
  rw [batch_big]
  rfl

/-!  Helper lemmas: the recovery sweep as a pointwise map. -/

/-- One update_file_sync call is a row-wise map. -/
theorem update_as_map (rows : List FileItem) (t : FileItem) :
    update_file_sync rows t.file_name (markIncompleteItem t) =
      rows.map (fun g => sweepStep g t) := by
  simp only [update_file_sync, sweepStep, markIncompleteItem]

/-- The whole sweep is a row-wise fold of sweepStep. -/
theorem reset_with_as_map (todo rows : List FileItem) :
    reset_stuck_files_with todo rows =
      rows.map (fun g => todo.foldl sweepStep g) := by
  induction todo generalizing rows with
  | nil => simp [reset_stuck_files_with]
  | cons t ts ih =>
      rw [show reset_stuck_files_with (t :: ts) rows =
            reset_stuck_files_with ts (update_file_sync rows t.file_name (markIncompleteItem t))
          from rfl]
      rw [update_as_map, ih, List.map_map]
      simp only [Function.comp_def, List.foldl_cons]

/-- Updates keyed to other rows leave a row alone. -/
theorem sweepStep_no_match (g t : FileItem) (h : t.file_name ≠ g.file_name) :
    sweepStep g t = g := by
  simp [sweepStep]
  intro he
  exact absurd he.symm h

/-- A fold of updates keyed to other rows leaves a row alone. -/
theorem foldl_sweep_no_match (todo : List FileItem) (g : FileItem)
    (h : ∀ t ∈ todo, t.file_name ≠ g.file_name) :
    todo.foldl sweepStep g = g := by
  induction todo with
  | nil => rfl
  | cons t ts ih =>
      rw [List.foldl_cons, sweepStep_no_match g t (h t (by simp))]
      exact ih (fun u hu => h u (by simp [hu]))

/-- Updating a row with its own stuck record marks it incomplete. -/
theorem sweepStep_self (f : FileItem) :
    sweepStep f f = markIncompleteItem f := by
  simp [sweepStep, markIncompleteItem]

/-- Once marked, further updates from rows of the same key are idempotent. -/
theorem sweepStep_marked (f t : FileItem) (h : t.file_name = f.file_name → t = f) :
    sweepStep (markIncompleteItem f) t = markIncompleteItem f := by
  by_cases hk : t.file_name = f.file_name
  · have ht := h hk
    subst ht
    simp [sweepStep, markIncompleteItem]
  · exact sweepStep_no_match _ _ (by simpa [markIncompleteItem] using hk)

/-- A fold of compatible updates fixes a marked row. -/
theorem foldl_sweep_marked (todo : List FileItem) (f : FileItem)
    (h : ∀ t ∈ todo, t.file_name = f.file_name → t = f) :
    todo.foldl sweepStep (markIncompleteItem f) = markIncompleteItem f := by
  induction todo with
  | nil => rfl
  | cons t ts ih =>
      rw [List.foldl_cons, sweepStep_marked f t (h t (by simp))]
      exact ih (fun u hu => h u (by simp [hu]))

/-- A row that occurs in the fetched stuck list ends up marked incomplete. -/
theorem foldl_sweep_match (todo : List FileItem) (f : FileItem)
    (hmem : ∀ t ∈ todo, t.file_name = f.file_name → t = f)
    (hin : f ∈ todo) :
    todo.foldl sweepStep f = markIncompleteItem f := by
  induction todo with
  | nil => cases hin
  | cons t ts ih =>
      by_cases hk : t.file_name = f.file_name
      · have ht : t = f := hmem t (by simp) hk
        subst ht
        rw [List.foldl_cons, sweepStep_self]
        exact foldl_sweep_marked ts t (fun u hu => hmem u (by simp [hu]))
      · rw [List.foldl_cons, sweepStep_no_match f t hk]
        rcases List.mem_cons.mp hin with h1 | h2
        · exact absurd (h1 ▸ rfl) hk
        · exact ih (fun u hu => hmem u (by simp [hu])) h2

/-!  Helper lemmas: the status transition relation. -/

/-- Strings whose lengths differ are different. -/
theorem ne_of_length_ne (a b : String) (h : a.length ≠ b.length) : a ≠ b :=
  fun he => h (he ▸ rfl)

/-- Every write site of processing_status runs on a record whose status is
new, extracted, incomplete or processing; in particular no site re-claims an
error status or a complete status. -/
theorem statusStep_sources (s t : String) (h : StatusStep s t) :
    s ∈ ["", "extracted", "incomplete", "processing"] := by
  cases h <;> simp

/-!  Claim-level theorems. -/

/-- C1: the claim says a paragraph whose id is in the dedup set returned by
existingParagraphIds is not embedded again. Evaluation at the failing input:
one paragraph with id "pid-x", dedup set containing exactly "pid-x" — the
pass still issues an embedding call on its text and still produces its
chunk vector, because the membership test ends in a bare `continue` that
filters nothing. -/
theorem C1_dedup_ineffective :
    (process_file_paragraphs okOracle (fun _ _ => "pid-gen") 16 [par1] ["pid-x"]).trace =
      [(["hello"], true)] ∧
    (process_file_paragraphs okOracle (fun _ _ => "pid-gen") 16 [par1] ["pid-x"]).pvecs.map
      (fun v => (v.paragraph_id, v.text)) = [("pid-x", "hello")] := by
  decide

/-- C2: the claim says two back-to-back passes with no failures leave status
complete and exactly one ParagraphVector per chunk, the second pass a no-op.
Evaluation at the failing input: one paragraph, one chunk, no failures —
both passes end complete, but the jsonl carries no paragraph id, each pass
draws a fresh random suffix, and the second pass writes a second sink entry
for the same single chunk. -/
theorem C2_double_pass_duplicates :
    chunkify_text parH.paragraph_text 256 1024 = ["hello world"] ∧
    passOne.2 = "complete" ∧
    passTwo.2 = "complete" ∧
    passOne.1.kv.length = 1 ∧
    passTwo.1.kv.length = 2 := by
  decide

/-- C3 counterexample: two calls of the p_utils generate_paragraph_id on the
same text with different draws of the 4-character random suffix return
different ids, so the id is not a pure function of the text. -/
theorem C3_counterexample :
    p_generate_paragraph_id md5c "aaaa" "hello" ≠ p_generate_paragraph_id md5c "aaab" "hello" := by
  decide

/-- C3 amended: a paragraph id produced by the p_utils generate_paragraph_id
splits into a prefix that is a function of the text alone (pid-, the
6-character content hash, a dash) followed by the per-call random suffix;
only the prefix is stable across two calls. -/
theorem C3_id_prefix_stable (md5hex : String → String) (s1 s2 text : String) :
    ∃ p, p_generate_paragraph_id md5hex s1 text = p ++ s1 ∧
      p_generate_paragraph_id md5hex s2 text = p ++ s2 := by
  refine ⟨"pid-" ++ generate_content_hash md5hex text "" 6 ++ "-", ?_, ?_⟩ <;>
    simp [p_generate_paragraph_id, String.append_assoc]

/-- C4: the claim says a below-ceiling paragraph chunks to itself and an
above-ceiling paragraph chunks with no line dropped. Evaluation at the
failing input: a two-line text above the ceiling chunks to two empty
strings — every flush-triggering line is dropped, and the concatenation of
the chunks does not reconstruct the text. -/
theorem C4_chunker_drops_lines :
    ¬ count_tokens c4Text < 4 ∧
    chunkify_text c4Text 2 4 = ["", ""] ∧
    String.join (chunkify_text c4Text 2 4) ≠ c4Text := by
  decide

/-- C5 counterexample: with batch size 1 and a paragraph whose text chunks
into four pieces, the first embedding call of the task succeeds and the
second times out; the claim says the successfully embedded first chunk is
still written, but the whole task returns no vectors, nothing reaches the
sink, and the file ends incomplete. -/
theorem C5_counterexample :
    (process_file_paragraphs oracleC5 genBig 1 [parBig] []).trace =
      [([chABStr], true), ([chDEStr], false)] ∧
    (process_file_paragraphs oracleC5 genBig 1 [parBig] []).pvecs = [] ∧
    process_single_file oracleC5 genBig 1 ⟨[], []⟩ fileBig [parBig] =
      (⟨[], []⟩, "incomplete") := by
  refine ⟨by rw [pass_big], by rw [pass_big], ?_⟩
  simp only [process_single_file]
  rw [show get_all_vector_ids (.ok (scanKeys ⟨[], []⟩ fileBig.file_name)) = ([] : List String)
    from rfl]
  rw [pass_big]
  rfl

/-- C5 amended: an embedding failure is scoped to its paragraph-batch task:
every vector of a task none of whose calls failed is written regardless of
sibling failures, a failed task contributes nothing (including chunks of its
own sub-batches that had already embedded), and a pass with a failed task
leaves the file incomplete. The next pass retries all paragraphs, not only
the failed remainder, because the dedup filter is ineffective (C1). -/
theorem C5_failure_scoping (oracle : EmbedOracle) (gen : Nat → String → String)
    (bsz : Nat) (pars : List ParagraphData) (processed : List String) :
    (∀ b ∈ taskBatches gen bsz pars,
      (process_paragraphs_batch oracle bsz b).failed = false →
      ∀ v ∈ (process_paragraphs_batch oracle bsz b).pvecs,
        v ∈ (process_file_paragraphs oracle gen bsz pars processed).pvecs) ∧
    (∀ b ∈ taskBatches gen bsz pars,
      (process_paragraphs_batch oracle bsz b).failed = true →
      (process_paragraphs_batch oracle bsz b).pvecs = []) ∧
    (∀ (st : RedisState) (file : FileItem),
      (process_file_paragraphs oracle gen bsz pars
        (get_all_vector_ids (.ok (scanKeys st file.file_name)))).anyFailed = true →
      (process_single_file oracle gen bsz st file pars).2 = "incomplete") := by
  refine ⟨?_, ?_, ?_⟩
  · intro b hb hok v hv
    simp only [process_file_paragraphs]
    exact List.mem_flatMap.mpr ⟨process_paragraphs_batch oracle bsz b,
      List.mem_map_of_mem _ hb, hv⟩
  · intro b _ hfail
    unfold process_paragraphs_batch at hfail ⊢
    rcases hres : runSubBatches oracle (List.toChunks bsz (b.flatMap paragraphPVecs)) with ⟨tr, res⟩
    rw [hres] at hfail
    cases res with
    | none => rfl
    | some vs => exact Bool.noConfusion hfail
  · intro st file h
    simp only [process_single_file]
    split
    · rfl
    · simp [h]

/-- C5 witness: two single-paragraph tasks, the second failing — the first
task's vector is in the pass output, the failed task returns no vectors, and
the pass leaves the file incomplete. -/
theorem C5_failure_scoping_witness :
    (⟨"pid-1", 1, (0, 0, 0, 0), 0, "ok-para", some [1]⟩ : ParagraphVectorData) ∈
      (process_file_paragraphs oracleW genW 1 [pW1, pW2] []).pvecs ∧
    (process_paragraphs_batch oracleW 1 [pW2]).pvecs = [] ∧
    (process_single_file oracleW genW 1 ⟨[], []⟩ fileA [pW1, pW2]).2 = "incomplete" :=
  ⟨(C5_failure_scoping oracleW genW 1 [pW1, pW2] []).1 [pW1] (by decide) (by decide) _ (by decide),
   (C5_failure_scoping oracleW genW 1 [pW1, pW2] []).2.1 [pW2] (by decide) (by decide),
   (C5_failure_scoping oracleW genW 1 [pW1, pW2] []).2.2 ⟨[], []⟩ fileA (by decide)⟩

/-- C6: after the recovery sweep, every row that was in processing is in
incomplete and every other row is unchanged (file names are unique: they are
the primary key of the user_files table). -/
theorem C6_recovery_sweep (rows : List FileItem)
    (hnd : (rows.map (·.file_name)).Nodup) :
    reset_stuck_files rows = rows.map
      (fun f => if f.processing_status = "processing" then markIncompleteItem f else f) := by
  have hinj : ∀ x ∈ rows, ∀ y ∈ rows, x.file_name = y.file_name → x = y :=
    List.inj_on_of_nodup_map hnd
  rw [reset_stuck_files, reset_with_as_map]
  refine List.map_congr_left (fun f hf => ?_)
  by_cases hp : f.processing_status = "processing"
  · rw [if_pos hp]
    refine foldl_sweep_match _ f (fun t ht hkey => ?_) ?_
    · have ht' := List.mem_filter.mp ht
      exact hinj t ht'.1 f hf hkey
    · exact List.mem_filter.mpr ⟨hf, by simp [hp]⟩
  · rw [if_neg hp]
    refine foldl_sweep_no_match _ f (fun t ht => ?_)
    have ht' := List.mem_filter.mp ht
    intro hkey
    have heqtf := hinj t ht'.1 f hf hkey
    subst heqtf
    exact hp (by simpa using ht'.2)

/-- C6 witness: the sweep on a two-row registry resets the processing row and
leaves the complete row alone. -/
theorem C6_recovery_sweep_witness :
    reset_stuck_files [procFile, doneFile] =
      [markIncompleteItem procFile, doneFile] := by
  have h := C6_recovery_sweep [procFile, doneFile] (by decide)
  rw [h]
  decide

/-- C7 counterexample: a record whose status is an error string is not
eligible for re-claim — neither worker claim filter selects it and no write
site steps it back to processing — refuting the claim that error strings are
re-entrant. -/
theorem C7_counterexample :
    get_files_to_process [errFile] = [] ∧
    get_files_to_extract [errFile] = [] ∧
    ¬ StatusStep "Error: jsonl file not found on disk" "processing" := by
  refine ⟨by decide, by decide, fun h => ?_⟩
  have hs := statusStep_sources _ _ h
  exact absurd hs (by decide)

/-- C7 amended: every status write site moves the record strictly forward
along the chain new, extracted, processing, terminal — except the re-entrant
incomplete-to-processing re-claim — and every write site starts from new,
extracted, incomplete or processing, so error strings (and complete) are
terminal for the pipeline. -/
theorem C7_status_forward (s t : String) (h : StatusStep s t) :
    (statusRank s < statusRank t ∨ (s = "incomplete" ∧ t = "processing")) ∧
    s ∈ ["", "extracted", "incomplete", "processing"] := by
  refine ⟨?_, statusStep_sources s t h⟩
  cases h with
  | extract_err e =>
      left
      have hl : 10 < ("Error extracting file: " ++ e).length := by
        rw [String.length_append]
        have h23 : ("Error extracting file: ").length = 23 := by decide
        omega
      have h1 : ("Error extracting file: " ++ e) ≠ "" :=
        ne_of_length_ne _ _ (by intro hc; rw [hc] at hl; revert hl; decide)
      have h2 : ("Error extracting file: " ++ e) ≠ "extracted" :=
        ne_of_length_ne _ _ (by intro hc; rw [hc] at hl; revert hl; decide)
      have h3 : ("Error extracting file: " ++ e) ≠ "processing" :=
        ne_of_length_ne _ _ (by intro hc; rw [hc] at hl; revert hl; decide)
      rw [statusRank, statusRank, if_neg h1, if_neg h2, if_neg h3]
      norm_num
  | extract_ok => left; decide
  | claim_extracted => left; decide
  | claim_incomplete => right; exact ⟨rfl, rfl⟩
  | jsonl_missing => left; decide
  | batch_failed => left; decide
  | pass_exception => left; decide
  | pass_complete => left; decide
  | recovery_sweep => left; decide

/-- C7 witness: the extraction transition moves the phase forward. -/
theorem C7_status_forward_witness :
    (statusRank "" < statusRank "extracted" ∨ ("" = "incomplete" ∧ "extracted" = "processing")) ∧
    "" ∈ ["", "extracted", "incomplete", "processing"] :=
  C7_status_forward "" "extracted" StatusStep.extract_ok

/-- C8 counterexample: on a 5-character text the token estimate is 1, not
the ceiling of 5 divided by 4 (which is 2). -/
theorem C8_counterexample :
    count_tokens "aaaaa" ≠ ("aaaaa".length + 3) / 4 := by
  decide

/-- C8 amended: the token estimate is the floor, not the ceiling, of the
character count divided by 4 (with an empty text counted as one character):
four times the estimate never exceeds the count and falls short of it by
less than 4. -/
theorem C8_token_estimate_floor (text : String) :
    4 * count_tokens text ≤ (if text.length = 0 then 1 else text.length) ∧
    (if text.length = 0 then 1 else text.length) < 4 * count_tokens text + 4 := by
  simp only [count_tokens]
  constructor <;> split <;> omega

/-- C9: create returns false exactly when a row with the same file_name
already exists, leaving the table unchanged in that case, and otherwise
appends the row and returns true. -/
theorem C9_create_contract (rows : List FileItem) (file : FileItem) :
    ((create_file_sync rows file).1 = false ↔
      rows.any (·.file_name == file.file_name) = true) ∧
    (create_file_sync rows file).2 =
      (if rows.any (·.file_name == file.file_name) then rows else rows ++ [file]) := by
  by_cases h : rows.any (·.file_name == file.file_name) = true <;>
    simp [create_file_sync, sql_insert_user_files, h]

/-- C10: a backend error inside get_all_vector_ids is swallowed and the
result is the same as reading an empty collection — the caller cannot
distinguish a failing sink read from an empty sink, so dedup degrades to
re-embedding instead of an error status. -/
theorem C10_sink_error_reads_empty (e : String) :
    get_all_vector_ids (.error e) = get_all_vector_ids (.ok []) := rfl

end PdfChat
